import Mathlib

/-!
Verification of the dsv-wrapper authentication core against its design
specification.  The definitions below are a shallow embedding of the
Python modules dsv_wrapper/auth/shibboleth.py and
dsv_wrapper/auth/cache_backend.py: pure data (cookies, parsed HTML
pages, HTTP responses) becomes Lean structures, the stateful login flow
becomes explicit state passing over an environment that records what
the network returned to each request in program order, and Python
exceptions become explicit error values.  Timestamps are modelled as
natural numbers; the ISO-8601 rendering used by the file cache is
modelled by an injective decimal encoding with the same failure modes
(ValueError on a malformed string, TypeError on a non-string).
-/

namespace Dsv

/-- A cookie as stored in a requests cookie jar: the four fields the
repository ever reads or serializes. -/
structure Cookie where
  name : String
  value : String
  domain : String
  path : String
deriving DecidableEq, Repr

/-- Lower-case a string character by character, modelling the Python
str.lower calls in the validator and the flow. -/
def lowerStr (s : String) : String :=
  String.mk (s.data.map Char.toLower)

/-- Take the first n characters of a string, modelling a Python slice
such as text[:1000]. -/
def takeStr (s : String) (n : Nat) : String :=
  String.mk (s.data.take n)

/-- Decide whether one character list occurs contiguously inside
another; the helper behind the Python substring operator. -/
def charsContain (needle : List Char) : List Char → Bool
  | [] => needle.isEmpty
  | c :: rest => needle.isPrefixOf (c :: rest) || charsContain needle rest

/-- The Python substring test: needle occurs somewhere in hay. -/
def strContains (hay needle : String) : Bool :=
  charsContain needle.data hay.data

/-- The Python str.startswith test, structurally on character lists. -/
def strStartsWith (s pre : String) : Bool :=
  pre.data.isPrefixOf s.data

/-- Whether a URL carries a scheme.  Both HTTP clients used by the
source validate this before any exchange: requests raises
MissingSchema, a RequestException, and aiohttp raises InvalidURL, a
ClientError, client-side when asked to request a schemeless URL, so a
post to an unresolved relative action never reaches the network. -/
def hasUrlScheme (a : String) : Bool :=
  strContains a ("://")

/-- Insert or overwrite a key in an insertion-ordered association
list, modelling assignment into a Python dict. -/
def alistUpd {α : Type} (l : List (String × α)) (k : String) (v : α) :
    List (String × α) :=
  if l.any (fun p => p.fst == k) then
    l.map (fun p => if p.fst == k then (k, v) else p)
  else l ++ [(k, v)]

/-- Look a key up in an association list, modelling Python dict and
dict.get access. -/
def alistGet {α : Type} (l : List (String × α)) (k : String) : Option α :=
  (l.find? (fun p => p.fst == k)).map (fun p => p.snd)

/-- Remove a key from an association list, modelling Python dict.pop
and del. -/
def alistDel {α : Type} (l : List (String × α)) (k : String) :
    List (String × α) :=
  l.filter (fun p => !(p.fst == k))

/-- Two cookies collide in a requests cookie jar when name, domain and
path all agree. -/
def cookieKeyEq (c d : Cookie) : Bool :=
  c.name == d.name && c.domain == d.domain && c.path == d.path

/-- Setting one cookie in a jar replaces any cookie with the same
name, domain and path, as RequestsCookieJar.set does. -/
def jarSet (jar : List Cookie) (c : Cookie) : List Cookie :=
  jar.filter (fun d => !(cookieKeyEq d c)) ++ [c]

/-- Merge the cookies set by a response into the session jar, as the
requests session does after each exchange. -/
def jarUpdate (jar : List Cookie) (cs : List Cookie) : List Cookie :=
  cs.foldl jarSet jar

/-- Convert a jar to a name to value dict, modelling the dict
comprehension over a cookie jar in the asynchronous handler. -/
def jarToDict (jar : List Cookie) : List (String × String) :=
  jar.foldl (fun d c => alistUpd d c.name c.value) []

/-- A session cookie in the sense of the verification step of
ShibbolethAuth: named exactly JSESSIONID or carrying the federated
session name marker. -/
def sessionName (n : String) : Bool :=
  n == ("JSESSIONID") || strStartsWith n ("_shibsession")

/-- Whether the accumulated jar contains at least one session cookie;
the check at the end of ShibbolethAuth perform-login. -/
def hasSessionCookie (jar : List Cookie) : Bool :=
  jar.any (fun c => sessionName c.name)

/-- Input to the cookie validator: either the validation GET raised a
network exception, or it produced a response with a status code, an
optional Location header and a body text. -/
inductive ValInput where
  | exc : ValInput
  | resp (status : Nat) (location : Option String) (text : String) : ValInput
deriving DecidableEq, Repr

/-- The cookie validator, translated from
ShibbolethAuth validate-cookies: a redirect whose Location mentions
login or sso fails; otherwise a 200 page whose first kilobyte mentions
login and whose first two kilobytes contain a form tag and the word
password fails; any exception fails; everything else passes. -/
def validateCookies : ValInput → Bool
  | ValInput.exc => false
  | ValInput.resp status location text =>
    if (status == 301 || status == 302 || status == 303) &&
        (strContains (lowerStr (location.getD (""))) ("login") ||
         strContains (lowerStr (location.getD (""))) ("sso")) then
      false
    else
      if strContains (takeStr (lowerStr text) 1000) ("login") && status == 200 &&
          (strContains (takeStr (lowerStr text) 2000) ("<form") &&
           strContains (takeStr (lowerStr text) 2000) ("password")) then
        false
      else
        true

/-- The validator invalidity condition exactly as claim C5 words it:
a redirect with a login or sso marker in Location, or a 200 response
whose first two kilobytes contain both a form tag and a password
marker, or a network error.  This definition follows the claim, not
the source, and is compared against validateCookies. -/
def claimedValidatorInvalid : ValInput → Bool
  | ValInput.exc => true
  | ValInput.resp status location text =>
    ((status == 301 || status == 302 || status == 303) &&
      (strContains (lowerStr (location.getD (""))) ("login") ||
       strContains (lowerStr (location.getD (""))) ("sso"))) ||
    (status == 200 &&
      (strContains (takeStr (lowerStr text) 2000) ("<form") &&
       strContains (takeStr (lowerStr text) 2000) ("password")))

/-- The corrected invalidity condition: as the claim, but the 200
branch additionally requires the word login within the first kilobyte
of the page, as the source does. -/
def amendedValidatorInvalid : ValInput → Bool
  | ValInput.exc => true
  | ValInput.resp status location text =>
    ((status == 301 || status == 302 || status == 303) &&
      (strContains (lowerStr (location.getD (""))) ("login") ||
       strContains (lowerStr (location.getD (""))) ("sso"))) ||
    (strContains (takeStr (lowerStr text) 1000) ("login") && status == 200 &&
      (strContains (takeStr (lowerStr text) 2000) ("<form") &&
       strContains (takeStr (lowerStr text) 2000) ("password")))

/-- The exception kinds that can arise while the file cache loads a
persisted entry. -/
inductive PyExc where
  | jsonDecodeError : PyExc
  | keyError : PyExc
  | valueError : PyExc
  | typeError : PyExc
deriving DecidableEq, Repr

/-- Which exceptions the except clause of FileCache.get catches: the
source lists JSONDecodeError, KeyError and ValueError. -/
def caughtByFileGet : PyExc → Bool
  | PyExc.jsonDecodeError => true
  | PyExc.keyError => true
  | PyExc.valueError => true
  | PyExc.typeError => false

/-- A JSON value, the result of json.load on a cache file. -/
inductive Json where
  | null : Json
  | bool (b : Bool) : Json
  | num (n : Nat) : Json
  | str (s : String) : Json
  | arr (xs : List Json) : Json
  | obj (kvs : List (String × Json)) : Json

/-- The content of a file in the cache directory: either text that
json.load rejects outright, or a JSON value. -/
inductive FileData where
  | notJson : FileData
  | json (j : Json) : FileData

/-- A cache directory, mapping file names to contents. -/
abbrev FS := List (String × FileData)

/-- Python subscript access data[k]: a missing key in a dict raises
KeyError, while subscripting any non-dict value with a string key
raises TypeError. -/
def jsonIndex : Json → String → Except PyExc Json
  | Json.obj kvs, k =>
      match alistGet kvs k with
      | some v => Except.ok v
      | none => Except.error PyExc.keyError
  | _, _ => Except.error PyExc.typeError

/-- Python dict.get with a default, reached only on dict values. -/
def jsonGetD (kvs : List (String × Json)) (k : String) (dflt : Json) : Json :=
  (alistGet kvs k).getD dflt

/-- Python iteration over the value stored under the cookies key: a
list yields its elements, a string yields its characters, a dict
yields its keys, and the remaining values are not iterable and raise
TypeError. -/
def jsonIter : Json → Except PyExc (List Json)
  | Json.arr xs => Except.ok xs
  | Json.str s => Except.ok (s.data.map (fun c => Json.str (String.mk [c])))
  | Json.obj kvs => Except.ok (kvs.map (fun p => Json.str p.fst))
  | _ => Except.error PyExc.typeError

/-- Render a JSON leaf as the string a cookie field receives; entries
written by FileCache.set always hold strings here, so only the str
case is ever exercised by the repository itself. -/
def jsonAsStr : Json → String
  | Json.str s => s
  | Json.null => ("None")
  | Json.bool b => if b then ("True") else ("False")
  | Json.num n => toString n
  | Json.arr _ => ("<list>")
  | Json.obj _ => ("<dict>")

/-- Decimal digit value of a character, if it is one. -/
def decDigit (c : Char) : Option Nat :=
  if 48 ≤ c.toNat ∧ c.toNat ≤ 57 then some (c.toNat - 48) else none

/-- Render a timestamp, standing for datetime.isoformat: an injective
textual encoding of the instant. -/
def isoFormat (n : Nat) : String :=
  if n = 0 then ("0")
  else String.mk (((Nat.digits 10 n).reverse).map (fun d => Char.ofNat (48 + d)))

/-- Parse a timestamp, standing for datetime.fromisoformat on a
string: it succeeds exactly on well-formed renderings. -/
def isoParse (s : String) : Option Nat :=
  if s.data ≠ [] ∧ s.data.all (fun c => (decDigit c).isSome) then
    some (s.data.foldl (fun acc c => acc * 10 + (c.toNat - 48)) 0)
  else none

/-- The call datetime.fromisoformat applied to a loaded JSON value:
ValueError on a string that does not parse, TypeError on a non-string
argument. -/
def fromIsoformat : Json → Except PyExc Nat
  | Json.str s =>
      match isoParse s with
      | some n => Except.ok n
      | none => Except.error PyExc.valueError
  | _ => Except.error PyExc.typeError

/-- Rebuild one cookie from its JSON record, as the jar.set call in
FileCache.get does: subscripts for name and value, dict.get with
defaults for domain and path. -/
def buildCookie (cd : Json) : Except PyExc Cookie :=
  match jsonIndex cd ("name") with
  | Except.error e => Except.error e
  | Except.ok n =>
    match jsonIndex cd ("value") with
    | Except.error e => Except.error e
    | Except.ok v =>
      match cd with
      | Json.obj kvs =>
          Except.ok
            { name := jsonAsStr n
              value := jsonAsStr v
              domain := jsonAsStr (jsonGetD kvs ("domain") (Json.str ("")))
              path := jsonAsStr (jsonGetD kvs ("path") (Json.str ("/"))) }
      | _ => Except.error PyExc.typeError

/-- Sanitize a cache key for the filesystem: FileCache replaces both
slash characters by underscores and appends the json suffix. -/
def cachePath (key : String) : String :=
  String.mk (key.data.map (fun c =>
    if c = Char.ofNat 47 ∨ c = Char.ofNat 92 then Char.ofNat 95 else c)) ++ (".json")

/-- Serialize one cookie for the cache file, as FileCache.set does for
jar input. -/
def cookieJson (c : Cookie) : Json :=
  Json.obj [(("name"), Json.str c.name), (("value"), Json.str c.value),
            (("domain"), Json.str c.domain), (("path"), Json.str c.path)]

/-- FileCache.set: compute the absolute expiry, serialize the cookies,
and write the record to the file named after the key. -/
def fileSet (fs : FS) (now : Nat) (key : String) (cookies : List Cookie)
    (ttl : Option Nat) (defaultTtl : Nat) : FS :=
  let expiresAt := now + ttl.getD defaultTtl
  let record := Json.obj
    [(("expires_at"), Json.str (isoFormat expiresAt)),
     (("cookies"), Json.arr (cookies.map cookieJson))]
  alistUpd fs (cachePath key) (FileData.json record)

/-- The cookie-reconstruction loop of FileCache.get: one jar.set call
per serialized record, stopping at the first exception. -/
def buildJar : List Json → List Cookie → Except PyExc (List Cookie)
  | [], jar => Except.ok jar
  | cd :: rest, jar =>
    match buildCookie cd with
    | Except.error e => Except.error e
    | Except.ok c => buildJar rest (jarSet jar c)

/-- The body of the try block of FileCache.get, in source order: load,
read and parse the expiry, compare against the clock, then rebuild the
jar; ok none signals the expired branch. -/
def fileGetBody (fd : FileData) (now : Nat) :
    Except PyExc (Option (List Cookie)) :=
  match fd with
  | FileData.notJson => Except.error PyExc.jsonDecodeError
  | FileData.json data =>
    match jsonIndex data ("expires_at") with
    | Except.error e => Except.error e
    | Except.ok ea =>
      match fromIsoformat ea with
      | Except.error e => Except.error e
      | Except.ok expiresAt =>
        if now > expiresAt then Except.ok none
        else
          match jsonIndex data ("cookies") with
          | Except.error e => Except.error e
          | Except.ok cs =>
            match jsonIter cs with
            | Except.error e => Except.error e
            | Except.ok items =>
              match buildJar items [] with
              | Except.error e => Except.error e
              | Except.ok jar => Except.ok (some jar)

/-- FileCache.get: a missing file is a miss; an expired file is
deleted and is a miss; a load failure of a caught kind deletes the
file and is a miss; any other exception propagates to the caller with
the file left in place. -/
def fileGet (fs : FS) (now : Nat) (key : String) :
    Except PyExc (Option (List Cookie)) × FS :=
  let path := cachePath key
  match alistGet fs path with
  | none => (Except.ok none, fs)
  | some fd =>
    match fileGetBody fd now with
    | Except.ok none => (Except.ok none, alistDel fs path)
    | Except.ok (some jar) => (Except.ok (some jar), fs)
    | Except.error e =>
        if caughtByFileGet e then (Except.ok none, alistDel fs path)
        else (Except.error e, fs)

/-- FileCache.delete: unlink the file if present. -/
def fileDelete (fs : FS) (key : String) : FS :=
  alistDel fs (cachePath key)

/-- The state of a MemoryCache: an insertion-ordered map from keys to
a stored jar and an absolute expiry instant. -/
abbrev MemState := List (String × (List Cookie × Nat))

/-- MemoryCache.get: a missing key is a miss; an expired entry is
deleted and is a miss; otherwise the stored jar is returned. -/
def memGet (st : MemState) (now : Nat) (key : String) :
    Option (List Cookie) × MemState :=
  match alistGet st key with
  | none => (none, st)
  | some (cookies, expiresAt) =>
      if now > expiresAt then (none, alistDel st key)
      else (some cookies, st)

/-- MemoryCache.set: store the jar with the absolute expiry derived
from the given or default ttl. -/
def memSet (st : MemState) (now : Nat) (key : String)
    (cookies : List Cookie) (ttl : Option Nat) (defaultTtl : Nat) : MemState :=
  alistUpd st key (cookies, now + ttl.getD defaultTtl)

/-- MemoryCache.delete: drop the entry if present. -/
def memDelete (st : MemState) (key : String) : MemState :=
  alistDel st key

/-- NullCache.get always misses. -/
def nullGet (_key : String) : Option (List Cookie) :=
  none

/-- NullCache.set discards its arguments. -/
def nullSet (_key : String) (_cookies : List Cookie) (_ttl : Option Nat) : Unit :=
  ()

/-- An input element of an HTML form as BeautifulSoup reports it: the
name and value attributes may each be absent. -/
structure InputField where
  name : Option String
  value : Option String
deriving DecidableEq, Repr

/-- A form element as the flow inspects it: its id, method and action
attributes, its input elements, and its textual rendering, which the
source probes for the literal j_username. -/
structure Form where
  id : Option String
  method : Option String
  action : Option String
  inputs : List InputField
  rendered : String
deriving DecidableEq, Repr

/-- A parsed HTML page: its form elements in document order, and the
stripped text of the first paragraph with the form-error class if one
exists. -/
structure Page where
  forms : List Form
  formError : Option String
deriving DecidableEq, Repr

/-- One HTTP exchange as the synchronous flow sees it after requests
has followed any allowed redirects: status code, optional Location
header, parsed body, and the cookies the exchange added to the jar. -/
structure NetResponse where
  status : Nat
  location : Option String
  page : Page
  setCookies : List Cookie
deriving DecidableEq, Repr

/-- What the network returned to each request of one synchronous flow
run, in program order; none means the request raised a requests
exception.  The field names follow the step comments in the source. -/
structure LoginEnv where
  step1 : Option NetResponse
  step2 : Option NetResponse
  step4 : Option NetResponse
  step5 : Option NetResponse
  step6 : Option NetResponse
deriving DecidableEq, Repr

/-- The errors a flow run can end in: an AuthenticationError, a
requests-level exception, an unguarded AttributeError, or a KeyError
from a missing Location header. -/
inductive FlowErr where
  | authError (msg : String) : FlowErr
  | netExc : FlowErr
  | attrError (msg : String) : FlowErr
  | keyError (msg : String) : FlowErr
  | runtimeError (msg : String) : FlowErr
deriving DecidableEq, Repr

/-- The kind of a form submission or follow-up request the flow
performs. -/
inductive ReqKind where
  | intermediateForm : ReqKind
  | credential : ReqKind
  | redirectFollow : ReqKind
  | samlRelay : ReqKind
deriving DecidableEq, Repr

/-- A request recorded in the flow trace: its kind, target URL, and
posted form data. -/
structure TraceReq where
  kind : ReqKind
  url : String
  data : List (String × String)
deriving DecidableEq, Repr

/-- Collect the name and value pairs of the input elements of a form,
as the three for-loops in the source do: elements without a name, or
with an empty name, are skipped, and a missing or empty value becomes
the empty string. -/
def collectInputs (l : List InputField) : List (String × String) :=
  l.foldl (fun d i =>
    match i.name with
    | some n => if n ≠ ("") then alistUpd d n (i.value.getD ("")) else d
    | none => d) []

/-- Resolve a form action against the identity provider host when it
is relative, as the source does before posting. -/
def resolveAction (a : String) : String :=
  if strStartsWith a ("/") then ("https://idp.it.su.se") ++ a else a

/-- Steps 1 and 2 of ShibbolethAuth perform-login: fetch the service
URL, then, when the first form of the resulting page does not carry
the login id, submit it as the intermediate localStorage form and
continue with the response.  Returns the jar and page that step 3
inspects, plus the trace of submissions so far. -/
def stage12 (env : LoginEnv) (jar0 : List Cookie) :
    Except FlowErr (List Cookie × Page) × List TraceReq :=
  match env.step1 with
  | none => (Except.error FlowErr.netExc, [])
  | some r1 =>
    let jar1 := jarUpdate jar0 r1.setCookies
    match r1.page.forms.head? with
    | none => (Except.ok (jar1, r1.page), [])
    | some f =>
      if f.id == some ("login") then (Except.ok (jar1, r1.page), [])
      else
        let formData := alistUpd (collectInputs f.inputs) ("_eventId_proceed") ("")
        match f.action with
        | none => (Except.error (FlowErr.attrError ("startswith on None action")), [])
        | some a =>
          let url := resolveAction a
          match env.step2 with
          | none => (Except.error FlowErr.netExc,
                     [TraceReq.mk ReqKind.intermediateForm url formData])
          | some r2 =>
              (Except.ok (jarUpdate jar1 r2.setCookies, r2.page),
               [TraceReq.mk ReqKind.intermediateForm url formData])

/-- Step 3 of ShibbolethAuth perform-login: look for the form with the
login id; failing that, take the first form of the page provided its
rendering mentions j_username; otherwise there is no login form. -/
def findLoginForm (pg : Page) : Option Form :=
  match pg.forms.find? (fun f => f.id == some ("login")) with
  | some f => some f
  | none =>
    match pg.forms.head? with
    | none => none
    | some f => if strContains f.rendered ("j_username") then some f else none

/-- The credential payload as the specification words it: all existing
input pairs of the login form, with j_username, j_password and an
empty _eventId_proceed overwritten or added, and the two SPNEGO fields
removed.  This definition follows the specification text and is
compared against the payload the embedded flow actually posts. -/
def specCredentialData (u pw : String) (inputs : List InputField) :
    List (String × String) :=
  alistDel (alistDel
    (alistUpd (alistUpd (alistUpd (collectInputs inputs)
      ("j_username") u) ("j_password") pw) ("_eventId_proceed") (""))
    ("_eventId_authn/SPNEGO")) ("_eventId_trySPNEGO")

/-- Step 5 of ShibbolethAuth perform-login: when the credential
response was a redirect, read its Location header, raising KeyError
when absent, and fetch it with redirects allowed; otherwise keep the
credential response as the current one. -/
def redirectStage (r4 : NetResponse) (jar4 : List Cookie) (env : LoginEnv)
    (tr0 : List TraceReq) : Except FlowErr (List Cookie × Page) × List TraceReq :=
  if r4.status == 301 || r4.status == 302 || r4.status == 303 then
    match r4.location with
    | none => (Except.error (FlowErr.keyError ("Location")), tr0)
    | some loc =>
      match env.step5 with
      | none => (Except.error FlowErr.netExc,
                 tr0 ++ [TraceReq.mk ReqKind.redirectFollow loc []])
      | some r5 =>
          (Except.ok (jarUpdate jar4 r5.setCookies, r5.page),
           tr0 ++ [TraceReq.mk ReqKind.redirectFollow loc []])
  else (Except.ok (jar4, r4.page), tr0)

/-- Step 6 of ShibbolethAuth perform-login: when the current page has
a form with the posted method, collect its inputs and submit them to
its action verbatim, with no resolution of a relative action; a
missing action, or a schemeless one, makes the post call itself raise
a requests exception (MissingSchema) before any exchange.  The trace
records the attempted submission with its computed payload. -/
def samlStage (jar5 : List Cookie) (pg5 : Page) (env : LoginEnv)
    (tr : List TraceReq) : Except FlowErr (List Cookie) × List TraceReq :=
  match pg5.forms.find? (fun sf => sf.method == some ("post")) with
  | none => (Except.ok jar5, tr)
  | some saml =>
    match saml.action with
    | none => (Except.error FlowErr.netExc, tr)
    | some sa =>
      let samlData := collectInputs saml.inputs
      if hasUrlScheme sa then
        match env.step6 with
        | none => (Except.error FlowErr.netExc,
                   tr ++ [TraceReq.mk ReqKind.samlRelay sa samlData])
        | some r6 =>
            (Except.ok (jarUpdate jar5 r6.setCookies),
             tr ++ [TraceReq.mk ReqKind.samlRelay sa samlData])
      else
        (Except.error FlowErr.netExc,
         tr ++ [TraceReq.mk ReqKind.samlRelay sa samlData])

/-- The final verification of ShibbolethAuth perform-login: a run that
reaches this point succeeds exactly when the accumulated jar holds a
session cookie, and otherwise raises an AuthenticationError. -/
def verifyStage (r : Except FlowErr (List Cookie)) (tr2 : List TraceReq) :
    Except FlowErr (List Cookie) × List TraceReq :=
  match r with
  | Except.error e => (Except.error e, tr2)
  | Except.ok jarF =>
    if hasSessionCookie jarF then (Except.ok jarF, tr2)
    else (Except.error (FlowErr.authError
           ("Authentication failed: No session cookies found")), tr2)

/-- Steps 4 to 6 of ShibbolethAuth perform-login, entered once a login
form was found: build and post the credential payload, check a 200
response for the form-error paragraph, then run the redirect, SAML and
verification stages in order. -/
def performCredential (u pw : String) (f : Form) (jar : List Cookie)
    (env : LoginEnv) : Except FlowErr (List Cookie) × List TraceReq :=
  match f.action with
  | none => (Except.error (FlowErr.authError ("Could not find login form action")), [])
  | some a =>
    let loginData := specCredentialData u pw f.inputs
    let url := resolveAction a
    let tr0 := [TraceReq.mk ReqKind.credential url loginData]
    match env.step4 with
    | none => (Except.error FlowErr.netExc, tr0)
    | some r4 =>
      let jar4 := jarUpdate jar r4.setCookies
      match (if r4.status == 200 then r4.page.formError else none) with
      | some msg =>
          (Except.error (FlowErr.authError (("Login failed: ") ++ msg)), tr0)
      | none =>
        match redirectStage r4 jar4 env tr0 with
        | (Except.error e, tr) => (Except.error e, tr)
        | (Except.ok (jar5, pg5), tr) =>
            verifyStage (samlStage jar5 pg5 env tr).fst (samlStage jar5 pg5 env tr).snd

/-- ShibbolethAuth perform-login in full: steps 1 and 2, then either
the early return of the current jar when step 3 finds no login form,
or the credential branch. -/
def performLogin (u pw : String) (env : LoginEnv) (jar0 : List Cookie) :
    Except FlowErr (List Cookie) × List TraceReq :=
  match stage12 env jar0 with
  | (Except.error e, tr) => (Except.error e, tr)
  | (Except.ok (jar, pg), tr) =>
    match findLoginForm pg with
    | none => (Except.ok jar, tr)
    | some lf =>
      let r := performCredential u pw lf jar env
      (r.fst, tr ++ r.snd)

/-- The errors the facade can surface: AuthenticationError and the
uncaught KeyError and AttributeError pass through unchanged, while a
requests exception is wrapped into a NetworkError. -/
inductive FacadeErr where
  | auth (msg : String) : FacadeErr
  | network : FacadeErr
  | attr (msg : String) : FacadeErr
  | key (msg : String) : FacadeErr
  | runtime (msg : String) : FacadeErr
deriving DecidableEq, Repr

/-- How the except clause of ShibbolethAuth login maps an engine
failure to the error the caller sees. -/
def wrapErr : FlowErr → FacadeErr
  | FlowErr.authError m => FacadeErr.auth m
  | FlowErr.netExc => FacadeErr.network
  | FlowErr.attrError m => FacadeErr.attr m
  | FlowErr.keyError m => FacadeErr.key m
  | FlowErr.runtimeError m => FacadeErr.runtime m

/-- ShibbolethAuth login against a MemoryCache backend: try the cache,
optionally validate a hit, delete an invalid hit and clear the session
jar, then run the engine and cache a success; an engine failure
propagates and caches nothing. -/
def loginSyncMem (u pw service : String) (validateCache : Bool)
    (valIn : ValInput) (env : LoginEnv) (st : MemState) (now : Nat)
    (cacheTtl : Nat) (jar0 : List Cookie) :
    Except FacadeErr (List Cookie) × MemState :=
  let key := u ++ ("_") ++ service
  let fresh := fun (st1 : MemState) (jar : List Cookie) =>
    match (performLogin u pw env jar).fst with
    | Except.ok cookies =>
        (Except.ok cookies, memSet st1 now key cookies (some cacheTtl) 86400)
    | Except.error e => (Except.error (wrapErr e), st1)
  match memGet st now key with
  | (some cached, st1) =>
    let _jarMerged := jarUpdate jar0 cached
    if validateCache then
      if validateCookies valIn then (Except.ok cached, st1)
      else fresh (memDelete st1 key) []
    else (Except.ok cached, st1)
  | (none, st1) => fresh st1 jar0

/-- One HTTP exchange as the asynchronous flow sees it: the aiohttp
response with its raw text and its parse, where page stands for the
parse of the text field. -/
structure AsyncResp where
  status : Nat
  location : Option String
  text : String
  page : Page
  setCookies : List Cookie
deriving DecidableEq, Repr

/-- What the network returned to each request of one asynchronous flow
run, in program order; none means the request raised an aiohttp client
error. -/
structure AsyncEnv where
  getService : Option AsyncResp
  postCred : Option AsyncResp
  redirectGet : Option AsyncResp
  samlPost : Option AsyncResp
deriving DecidableEq, Repr

/-- The text-indicator check AsyncShibbolethAuth uses to verify a
login: any of five literal markers, one of them the lowercased
username, occurring in the lowercased page. -/
def isAuthenticatedHtml (username html : String) : Bool :=
  [("logout"), ("logga ut"), lowerStr username, ("profile"), ("profil")].any
    (fun ind => strContains (lowerStr html) ind)

/-- The tail of AsyncShibbolethAuth perform-login after the credential
exchange: submit a method-post form when one is present, to its action
verbatim, then verify via the text indicators and return the jar
rendered as a dict.  A missing or schemeless action makes the post
call raise client-side (aiohttp InvalidURL) before any exchange; the
trace records the attempted submission with its computed payload. -/
def asyncAfterCred (u : String) (jar : List Cookie) (html : String)
    (pg : Page) (env : AsyncEnv) (tr : List TraceReq) :
    Except FlowErr (List (String × String)) × List TraceReq :=
  let verify := fun (jarV : List Cookie) (htmlV : String) (trV : List TraceReq) =>
    if isAuthenticatedHtml u htmlV then (Except.ok (jarToDict jarV), trV)
    else (Except.error (FlowErr.authError
           ("Authentication failed: Could not verify login")), trV)
  match pg.forms.find? (fun sf => sf.method == some ("post")) with
  | none => verify jar html tr
  | some saml =>
    match saml.action with
    | none => (Except.error FlowErr.netExc, tr)
    | some sa =>
      let samlData := collectInputs saml.inputs
      if hasUrlScheme sa then
        match env.samlPost with
        | none => (Except.error FlowErr.netExc,
                   tr ++ [TraceReq.mk ReqKind.samlRelay sa samlData])
        | some r =>
            verify (jarUpdate jar r.setCookies) r.text
              (tr ++ [TraceReq.mk ReqKind.samlRelay sa samlData])
      else
        (Except.error FlowErr.netExc,
         tr ++ [TraceReq.mk ReqKind.samlRelay sa samlData])

/-- AsyncShibbolethAuth perform-login: fetch the service URL, look
only for the form with the login id, post exactly the three credential
fields to its unresolved action, follow one redirect or check a direct
response for the form-error paragraph, then hand over to the SAML and
verification tail.  The action is never resolved, so a relative
(schemeless) action makes the post raise client-side (aiohttp
InvalidURL) before any exchange, after the payload was computed; the
trace records that attempted submission. -/
def asyncPerformLogin (u pw : String) (env : AsyncEnv) (jar0 : List Cookie) :
    Except FlowErr (List (String × String)) × List TraceReq :=
  match env.getService with
  | none => (Except.error FlowErr.netExc, [])
  | some r1 =>
    let jar1 := jarUpdate jar0 r1.setCookies
    match r1.page.forms.find? (fun f => f.id == some ("login")) with
    | none => (Except.ok (jarToDict jar1), [])
    | some f =>
      match f.action with
      | none =>
          (Except.error (FlowErr.authError ("Could not find login form action")), [])
      | some a =>
        let loginData :=
          [(("j_username"), u), (("j_password"), pw), (("_eventId_proceed"), (""))]
        let tr0 := [TraceReq.mk ReqKind.credential a loginData]
        if hasUrlScheme a then
          match env.postCred with
          | none => (Except.error FlowErr.netExc, tr0)
          | some r3 =>
            let jar3 := jarUpdate jar1 r3.setCookies
            if r3.status == 301 || r3.status == 302 || r3.status == 303 then
              match r3.location with
              | none => (Except.error (FlowErr.keyError ("Location")), tr0)
              | some loc =>
                match env.redirectGet with
                | none => (Except.error FlowErr.netExc,
                           tr0 ++ [TraceReq.mk ReqKind.redirectFollow loc []])
                | some r4 =>
                    asyncAfterCred u (jarUpdate jar3 r4.setCookies) r4.text r4.page
                      env (tr0 ++ [TraceReq.mk ReqKind.redirectFollow loc []])
            else
              match r3.page.formError with
              | some msg =>
                  (Except.error (FlowErr.authError (("Login failed: ") ++ msg)), tr0)
              | none => asyncAfterCred u jar3 r3.text r3.page env tr0
        else (Except.error FlowErr.netExc, tr0)

/-- A Python attribute value held on the asynchronous authenticator;
the shapes its constructor ever assigns. -/
inductive PyVal where
  | str (s : String) : PyVal
  | num (n : Nat) : PyVal
  | noneVal : PyVal
  | backendVal : PyVal
  | sessionVal : PyVal
deriving DecidableEq, Repr

/-- The instance attributes AsyncShibbolethAuth assigns in its
constructor, as an attribute dictionary: username, password,
cache_backend, cache_ttl, and a session slot holding None. -/
def asyncInitAttrs (u pw : String) (cacheTtl : Nat) : List (String × PyVal) :=
  [(("username"), PyVal.str u), (("password"), PyVal.str pw),
   (("cache_backend"), PyVal.backendVal), (("cache_ttl"), PyVal.num cacheTtl),
   (("session"), PyVal.noneVal)]

/-- The attribute dictionary after the asynchronous context manager
entry, which replaces the session slot with a live client session; no
other method of the class ever assigns an attribute. -/
def asyncEnteredAttrs (u pw : String) (cacheTtl : Nat) : List (String × PyVal) :=
  alistUpd (asyncInitAttrs u pw cacheTtl) ("session") PyVal.sessionVal

/-- Python truthiness of an attribute value, as an if statement
applies it. -/
def pyTruthy : PyVal → Bool
  | PyVal.str s => s ≠ ("")
  | PyVal.num n => n ≠ 0
  | PyVal.noneVal => false
  | PyVal.backendVal => true
  | PyVal.sessionVal => true

/-- AsyncShibbolethAuth login over an attribute dictionary: guard on
the session slot, then read the use_cache attribute, which raises
AttributeError when absent; the remainder of the method, reachable
only if that attribute existed, consults the cache attribute, runs the
flow and writes back to the cache.  The returned flag records whether
the perform-login coroutine was entered, and the returned dictionary
is the cache state the method left behind. -/
def asyncLoginMethod (attrs : List (String × PyVal)) (u pw service : String)
    (env : AsyncEnv) (jar0 : List Cookie)
    (cacheDict : List (String × List Cookie)) :
    (Except FlowErr (List (String × String)) × Bool) ×
      List (String × List Cookie) :=
  match alistGet attrs ("session") with
  | none => ((Except.error (FlowErr.attrError ("session")), false), cacheDict)
  | some PyVal.noneVal =>
      ((Except.error (FlowErr.runtimeError
         ("Session not initialized. Use async with context manager.")), false),
       cacheDict)
  | some _ =>
    let key := u ++ ("_") ++ service
    match alistGet attrs ("use_cache") with
    | none => ((Except.error (FlowErr.attrError ("use_cache")), false), cacheDict)
    | some uc =>
      let cachedStep :
          Option (Except FlowErr (List (String × String))) :=
        if pyTruthy uc then
          match alistGet attrs ("cache") with
          | none => some (Except.error (FlowErr.attrError ("cache")))
          | some _ =>
            match alistGet cacheDict key with
            | some jar => some (Except.ok (jarToDict jar))
            | none => none
        else none
      match cachedStep with
      | some r => ((r, false), cacheDict)
      | none =>
        match (asyncPerformLogin u pw env jar0).fst with
        | Except.error e => ((Except.error e, true), cacheDict)
        | Except.ok cookies =>
          if pyTruthy uc then
            match alistGet attrs ("cache") with
            | none => ((Except.error (FlowErr.attrError ("cache")), true), cacheDict)
            | some _ =>
                ((Except.ok cookies, true),
                 alistUpd cacheDict key
                   (cookies.map (fun p => Cookie.mk p.fst p.snd ("") ("/"))))
          else ((Except.ok cookies, true), cacheDict)

/-- Whether an optional response sets at least one session cookie. -/
def optRespSession : Option NetResponse → Bool
  | none => false
  | some r => hasSessionCookie r.setCookies

/-- Whether either of the first two exchanges of a run sets a session
cookie. -/
def envHasSessionEarly (env : LoginEnv) : Bool :=
  optRespSession env.step1 || optRespSession env.step2

/-- Whether any exchange of the credential branch of a run sets a
session cookie. -/
def envHasSessionLate (env : LoginEnv) : Bool :=
  optRespSession env.step4 || optRespSession env.step5 || optRespSession env.step6

/-- A page with no forms and no error paragraph. -/
def pageEmpty : Page :=
  Page.mk [] none

/-- A plain 200 response with an empty page that sets no cookies. -/
def respEmpty : NetResponse :=
  NetResponse.mk 200 none pageEmpty []

/-- An environment whose initial fetch lands directly on a formless
page: the already-authenticated shortcut of step 3. -/
def envNoLoginForm : LoginEnv :=
  LoginEnv.mk (some respEmpty) none none none none

/-- The institutional login form used by the concrete scenarios: id
login, posted method, a relative action, and one hidden token. -/
def loginFormFixture : Form :=
  Form.mk (some ("login")) (some ("post")) (some ("/idp/profile/SAML2/Redirect/SSO"))
    [InputField.mk (some ("csrf_token")) (some ("tok123"))]
    ("<form id=login><input name=j_username></form>")

/-- A page presenting only the login form. -/
def pageWithLoginForm : Page :=
  Page.mk [loginFormFixture] none

/-- The same institutional login form with an absolute action URL, as
identity-provider pages may also render it; posts to it pass the HTTP
client's scheme validation. -/
def loginFormAbsolute : Form :=
  Form.mk (some ("login")) (some ("post"))
    (some ("https://idp.it.su.se/idp/profile/SAML2/Redirect/SSO"))
    [InputField.mk (some ("csrf_token")) (some ("tok123"))]
    ("<form id=login><input name=j_username></form>")

/-- A page presenting only the absolute-action login form. -/
def pageLoginAbsolute : Page :=
  Page.mk [loginFormAbsolute] none

/-- A session cookie handed out by the service before the flow reaches
the identity provider. -/
def jsidCookie : Cookie :=
  Cookie.mk ("JSESSIONID") ("abc123") ("daisy.dsv.su.se") ("/")

/-- Concrete scenario for claim C2: the initial fetch sets a session
cookie and shows the login form, whose action is absolute; the
credential post silently re-displays the same login form with status
200 and no error paragraph; the re-displayed form is then re-submitted
to its absolute action as if it were a SAML relay form, harmlessly. -/
def envRedisplay : LoginEnv :=
  LoginEnv.mk
    (some (NetResponse.mk 200 none pageLoginAbsolute [jsidCookie]))
    none
    (some (NetResponse.mk 200 none pageLoginAbsolute []))
    none
    (some (NetResponse.mk 200 none pageEmpty []))

/-- An environment in which every request raises a requests-level
exception. -/
def envAllNone : LoginEnv :=
  LoginEnv.mk none none none none none

/-- As envRedisplay, but no exchange ever sets a cookie: the identity
provider silently re-displays the form and establishes no session. -/
def envRedisplayNoCookies : LoginEnv :=
  LoginEnv.mk
    (some (NetResponse.mk 200 none pageWithLoginForm []))
    none
    (some (NetResponse.mk 200 none pageWithLoginForm []))
    none
    (some (NetResponse.mk 200 none pageEmpty []))

/-- The concrete scenario of the specification, scenario A: the login
form is presented, the credential post redirects, and the follow-up
request sets the JSESSIONID session cookie. -/
def envLoginSuccess : LoginEnv :=
  LoginEnv.mk
    (some (NetResponse.mk 200 none pageWithLoginForm []))
    none
    (some (NetResponse.mk 303 (some ("https://daisy.dsv.su.se/")) pageEmpty []))
    (some (NetResponse.mk 200 none pageEmpty [jsidCookie]))
    none

/-- A concrete asynchronous run used only for its attempted credential
submission: the login form carries a relative action, so the engine
computes the three-field payload, records the attempt, and the post
raises client-side. -/
def asyncEnvTextVerify : AsyncEnv :=
  AsyncEnv.mk
    (some (AsyncResp.mk 200 none ("") pageWithLoginForm []))
    (some (AsyncResp.mk 200 none ("Welcome! <a>Logout</a>") pageEmpty []))
    none
    none

/-- A concrete completed asynchronous run: the login form carries an
absolute action, the credential post answers 200 with a page whose
text contains a logout marker and no method-post form, and no exchange
ever sets a cookie. -/
def asyncEnvAbsVerify : AsyncEnv :=
  AsyncEnv.mk
    (some (AsyncResp.mk 200 none ("") pageLoginAbsolute []))
    (some (AsyncResp.mk 200 none ("Welcome! <a>Logout</a>") pageEmpty []))
    none
    none

/-! Helper lemmas about the dictionary and jar models. -/

theorem alistGet_upd_found {α : Type} (l : List (String × α)) (k : String) (v : α)
    (h : l.any (fun p => p.fst == k) = true) :
    (l.map (fun p => if p.fst == k then (k, v) else p)).find?
      (fun p => p.fst == k) = some (k, v) := by
  induction l with
  | nil => simp at h
  | cons p t ih =>
    rw [List.map_cons]
    by_cases hp : (p.fst == k) = true
    · rw [if_pos hp]
      apply List.find?_cons_of_pos
      simp
    · rw [if_neg hp, List.find?_cons_of_neg]
      · apply ih
        simpa [hp] using h
      · simpa using hp

theorem alistGet_append_single {α : Type} (l : List (String × α)) (k : String) (v : α)
    (h : l.any (fun p => p.fst == k) = false) :
    (l ++ [(k, v)]).find? (fun p => p.fst == k) = some (k, v) := by
  induction l with
  | nil =>
    apply List.find?_cons_of_pos
    simp
  | cons p t ih =>
    simp only [List.any_cons, Bool.or_eq_false_iff] at h
    rw [List.cons_append, List.find?_cons_of_neg]
    · exact ih h.2
    · simp [h.1]

theorem alistGet_upd_self {α : Type} (l : List (String × α)) (k : String) (v : α) :
    alistGet (alistUpd l k v) k = some v := by
  unfold alistUpd alistGet
  cases h : l.any (fun p => p.fst == k) with
  | true =>
    rw [if_pos rfl, alistGet_upd_found l k v h]
    rfl
  | false =>
    rw [if_neg (by simp), alistGet_append_single l k v h]
    rfl

theorem alistGet_del_self {α : Type} (l : List (String × α)) (k : String) :
    alistGet (alistDel l k) k = none := by
  unfold alistDel alistGet
  have hnone : List.find? (fun p => p.fst == k)
      (l.filter (fun p => !(p.fst == k))) = none := by
    rw [List.find?_eq_none]
    intro x hx
    have hmem := List.of_mem_filter hx
    simpa using hmem
  rw [hnone]
  rfl

theorem mem_jarSet {c d : Cookie} {jar : List Cookie} (h : c ∈ jarSet jar d) :
    c ∈ jar ∨ c = d := by
  unfold jarSet at h
  rcases List.mem_append.mp h with h1 | h1
  · exact Or.inl (List.mem_of_mem_filter h1)
  · simp only [List.mem_singleton] at h1
    exact Or.inr h1

theorem mem_foldl_jarSet :
    ∀ (cs : List Cookie) (jar : List Cookie) (c : Cookie),
      c ∈ cs.foldl jarSet jar → c ∈ jar ∨ c ∈ cs := by
  intro cs
  induction cs with
  | nil =>
    intro jar c h
    exact Or.inl h
  | cons d t ih =>
    intro jar c h
    rw [List.foldl_cons] at h
    rcases ih (jarSet jar d) c h with h1 | h1
    · rcases mem_jarSet h1 with h2 | h2
      · exact Or.inl h2
      · right
        rw [h2]
        exact List.mem_cons_self d t
    · right
      exact List.mem_cons_of_mem d h1

theorem mem_jarUpdate {c : Cookie} {jar cs : List Cookie}
    (h : c ∈ jarUpdate jar cs) : c ∈ jar ∨ c ∈ cs :=
  mem_foldl_jarSet cs jar c h

theorem hasSessionCookie_jarUpdate_false {jar cs : List Cookie}
    (h0 : hasSessionCookie jar = false) (h1 : hasSessionCookie cs = false) :
    hasSessionCookie (jarUpdate jar cs) = false := by
  unfold hasSessionCookie at *
  rw [List.any_eq_false] at *
  intro c hc
  rcases mem_jarUpdate hc with h2 | h2
  · exact h0 c h2
  · exact h1 c h2

theorem cookieKeyEq_name {d c : Cookie} (h : cookieKeyEq d c = true) :
    d.name = c.name := by
  unfold cookieKeyEq at h
  simp only [Bool.and_eq_true, beq_iff_eq] at h
  exact h.1.1

theorem hasSessionCookie_jarSet (A : List Cookie) (c : Cookie) :
    hasSessionCookie (jarSet A c) = (hasSessionCookie A || sessionName c.name) := by
  unfold hasSessionCookie jarSet
  rw [List.any_append]
  simp only [List.any_cons, List.any_nil, Bool.or_false]
  cases hc : sessionName c.name with
  | false =>
    simp only [Bool.or_false]
    induction A with
    | nil => rfl
    | cons d t ih =>
      by_cases hd : cookieKeyEq d c = true
      · have hdn : sessionName d.name = false := by
          rw [cookieKeyEq_name hd]
          exact hc
        simp [List.filter_cons, hd, List.any_cons, hdn, ih]
      · simp only [Bool.not_eq_true] at hd
        simp [List.filter_cons, hd, List.any_cons, ih]
  | true => simp

theorem hasSessionCookie_jarUpdate (A B : List Cookie) :
    hasSessionCookie (jarUpdate A B) = (hasSessionCookie A || hasSessionCookie B) := by
  unfold jarUpdate
  induction B generalizing A with
  | nil => simp [hasSessionCookie]
  | cons c t ih =>
    rw [List.foldl_cons, ih, hasSessionCookie_jarSet]
    simp [hasSessionCookie, List.any_cons, Bool.or_assoc]

theorem verifyStage_ok (r : Except FlowErr (List Cookie)) (tr2 : List TraceReq)
    (j : List Cookie) (h : (verifyStage r tr2).fst = Except.ok j) :
    r = Except.ok j ∧ hasSessionCookie j = true := by
  cases r with
  | error e => exact Except.noConfusion h
  | ok jarF =>
    simp only [verifyStage] at h
    split at h
    · injection h with h3
      refine ⟨by rw [h3], ?_⟩
      rw [← h3]
      assumption
    · exact Except.noConfusion h

theorem samlStage_session (jar5 : List Cookie) (pg5 : Page) (env : LoginEnv)
    (tr : List TraceReq) (jarF : List Cookie)
    (h : (samlStage jar5 pg5 env tr).fst = Except.ok jarF)
    (hs : hasSessionCookie jarF = true) :
    hasSessionCookie jar5 = true ∨ optRespSession env.step6 = true := by
  simp only [samlStage] at h
  repeat' split at h
  · injection h with h3
    left
    rw [h3]
    exact hs
  · exact Except.noConfusion h
  · exact Except.noConfusion h
  · rename_i r6 heq6
    injection h with h3
    rw [← h3, hasSessionCookie_jarUpdate, Bool.or_eq_true] at hs
    rcases hs with hs | hs
    · exact Or.inl hs
    · right
      rw [heq6]
      exact hs
  · exact Except.noConfusion h

theorem redirectStage_session (r4 : NetResponse) (jar4 : List Cookie)
    (env : LoginEnv) (tr0 : List TraceReq) (jar5 : List Cookie) (pg5 : Page)
    (tr : List TraceReq)
    (h : redirectStage r4 jar4 env tr0 = (Except.ok (jar5, pg5), tr))
    (hs : hasSessionCookie jar5 = true) :
    hasSessionCookie jar4 = true ∨ optRespSession env.step5 = true := by
  unfold redirectStage at h
  repeat' split at h
  · injection h with h1 h2
    exact Except.noConfusion h1
  · injection h with h1 h2
    exact Except.noConfusion h1
  · rename_i r5 heq5
    injection h with h1 h2
    injection h1 with h3
    injection h3 with hj hp
    rw [← hj, hasSessionCookie_jarUpdate, Bool.or_eq_true] at hs
    rcases hs with hs | hs
    · exact Or.inl hs
    · right
      rw [heq5]
      exact hs
  · injection h with h1 h2
    injection h1 with h3
    injection h3 with hj hp
    left
    rw [hj]
    exact hs

theorem performCredential_ok_hasSession (u pw : String) (f : Form)
    (jar : List Cookie) (env : LoginEnv) (j : List Cookie)
    (h : (performCredential u pw f jar env).fst = Except.ok j) :
    hasSessionCookie j = true := by
  simp only [performCredential] at h
  repeat' split at h
  · exact Except.noConfusion h
  · exact Except.noConfusion h
  · exact Except.noConfusion h
  · exact Except.noConfusion h
  · exact (verifyStage_ok _ _ j h).2

theorem stage12_no_credential (env : LoginEnv) (jar0 : List Cookie) :
    ∀ r ∈ (stage12 env jar0).snd, r.kind ≠ ReqKind.credential := by
  simp only [stage12]
  repeat' split
  all_goals simp


theorem stage12_session (env : LoginEnv) (jar0 jar : List Cookie) (pg : Page)
    (tr : List TraceReq) (h : stage12 env jar0 = (Except.ok (jar, pg), tr))
    (h0 : hasSessionCookie jar0 = false)
    (he : envHasSessionEarly env = false) :
    hasSessionCookie jar = false := by
  simp only [stage12] at h
  repeat' split at h
  all_goals injection h with h1 h2
  all_goals first
    | exact Except.noConfusion h1
    | injection h1 with h3
  all_goals injection h3 with hj hp
  all_goals subst hj
  all_goals
    simp_all [envHasSessionEarly, optRespSession, hasSessionCookie_jarUpdate]

theorem performCredential_ok_session_source (u pw : String) (f : Form)
    (jar : List Cookie) (env : LoginEnv) (j : List Cookie)
    (h : (performCredential u pw f jar env).fst = Except.ok j) :
    (hasSessionCookie jar || envHasSessionLate env) = true := by
  cases hfa : f.action with
  | none =>
    simp only [performCredential, hfa] at h
    exact Except.noConfusion h
  | some a =>
  cases hs4 : env.step4 with
  | none =>
    simp only [performCredential, hfa, hs4] at h
    exact Except.noConfusion h
  | some r4 =>
    simp only [performCredential, hfa, hs4] at h
    split at h
    · exact Except.noConfusion h
    split at h
    · exact Except.noConfusion h
    rename_i jar5 pg5 tr hred
    obtain ⟨hok, hj⟩ := verifyStage_ok _ _ j h
    have h56 := samlStage_session jar5 pg5 env tr j hok hj
    have hassem : hasSessionCookie jar = true ∨
        optRespSession env.step4 = true ∨
        optRespSession env.step5 = true ∨
        optRespSession env.step6 = true := by
      rcases h56 with h5s | h5s
      · have h45 := redirectStage_session r4 (jarUpdate jar r4.setCookies)
          env _ jar5 pg5 tr hred h5s
        rcases h45 with h4s | h4s
        · rw [hasSessionCookie_jarUpdate, Bool.or_eq_true] at h4s
          rcases h4s with hx | hx
          · exact Or.inl hx
          · refine Or.inr (Or.inl ?_)
            rw [hs4]
            exact hx
        · exact Or.inr (Or.inr (Or.inl h4s))
      · exact Or.inr (Or.inr (Or.inr h5s))
    simp only [envHasSessionLate, Bool.or_eq_true]
    tauto

/-- Claim C1, counterexample: a run whose initial fetch lands on a
formless page returns the current jar as a success immediately, even
though that jar contains no JSESSIONID or federated-session cookie, so
the claimed verification step is not performed on this path. -/
theorem c1_counterexample :
    (performLogin ("u") ("pw") envNoLoginForm []).fst = Except.ok [] ∧
      hasSessionCookie [] = false := by
  exact ⟨rfl, rfl⟩

/-- Claim C1 as amended: when step 3 finds neither a form with the
login id nor a form mentioning j_username, the engine immediately
returns the cookie jar accumulated so far as a successful outcome,
without submitting any credential form and without applying the
session-cookie verification check; this is a valid terminal state
rather than an error. -/
theorem c1_amended (u pw : String) (env : LoginEnv) (jar0 jar : List Cookie)
    (pg : Page) (tr : List TraceReq)
    (h12 : stage12 env jar0 = (Except.ok (jar, pg), tr))
    (hnf : findLoginForm pg = none) :
    performLogin u pw env jar0 = (Except.ok jar, tr) ∧
      ∀ r ∈ tr, r.kind ≠ ReqKind.credential := by
  constructor
  · simp only [performLogin, h12, hnf]
  · intro r hr
    have hall := stage12_no_credential env jar0 r
    rw [h12] at hall
    exact hall hr

/-- Witness for the amended claim C1, at the concrete formless
environment. -/
theorem c1_witness :
    performLogin ("u") ("pw") envNoLoginForm [] = (Except.ok [], []) ∧
      ∀ r ∈ ([] : List TraceReq), r.kind ≠ ReqKind.credential := by
  exact c1_amended ("u") ("pw") envNoLoginForm [] [] pageEmpty [] rfl rfl

/-- Claim C2, counterexample: in the envRedisplay scenario the
credential POST response re-displays the login form, whose absolute
action is then re-posted as if it were the SAML relay form, yet the
engine completes successfully with the session cookie collected in
step 1 and the facade caches the result, so no Authentication error is
raised and the cache does not remain empty. -/
theorem c2_counterexample :
    (performLogin ("u") ("pw") envRedisplay []).fst = Except.ok [jsidCookie] ∧
    (match envRedisplay.step4 with
     | some r => (findLoginForm r.page).isSome
     | none => false) = true ∧
    (loginSyncMem ("u") ("pw") ("unified") true ValInput.exc envRedisplay [] 0 86400 []).snd ≠ [] := by
  refine ⟨rfl, rfl, ?_⟩
  decide

/-- Claim C2 as amended: the engine does not specifically detect a
re-displayed login form.  A credential-form run fails with a typed
error exactly because no session cookie ever enters the jar: whenever
the initial jar and every response of the run carry no session cookie
-- as when the identity provider silently re-displays the form without
setting new cookies -- the run raises an error, and a facade call that
started with an empty cache leaves the cache empty. -/
theorem c2_amended (u pw service : String) (valIn : ValInput) (env : LoginEnv)
    (jar0 jar : List Cookie) (pg : Page) (f : Form) (tr : List TraceReq)
    (now cacheTtl : Nat)
    (h12 : stage12 env jar0 = (Except.ok (jar, pg), tr))
    (hform : findLoginForm pg = some f)
    (h0 : hasSessionCookie jar0 = false)
    (hee : envHasSessionEarly env = false)
    (hel : envHasSessionLate env = false) :
    (∃ e, (performLogin u pw env jar0).fst = Except.error e) ∧
      (loginSyncMem u pw service true valIn env [] now cacheTtl jar0).snd = [] := by
  have hjar : hasSessionCookie jar = false := stage12_session env jar0 jar pg tr h12 h0 hee
  have herr : ∃ e, (performLogin u pw env jar0).fst = Except.error e := by
    cases hres : (performLogin u pw env jar0).fst with
    | error e => exact ⟨e, rfl⟩
    | ok j =>
      exfalso
      have hcred : (performCredential u pw f jar env).fst = Except.ok j := by
        simp only [performLogin, h12, hform] at hres
        exact hres
      have := performCredential_ok_session_source u pw f jar env j hcred
      rw [hjar, hel] at this
      simp at this
  obtain ⟨e, he⟩ := herr
  refine ⟨⟨e, he⟩, ?_⟩
  simp [loginSyncMem, memGet, alistGet, he]

/-- Claim C5, counterexample: a 200-status validation response whose
first two kilobytes contain a form tag and the word password, but
which never mentions the word login, is invalid under the claimed
classification yet the validator classifies it as valid. -/
theorem c5_counterexample :
    validateCookies (ValInput.resp 200 none ("<form action=x>secret password field</form>")) = true ∧
    claimedValidatorInvalid (ValInput.resp 200 none ("<form action=x>secret password field</form>")) = true := by
  constructor
  · decide
  · decide

/-- Claim C5 as amended: the validator classifies the single
validation GET as invalid exactly when the response is a redirect
whose Location contains a login or sso marker, or it is a 200 response
that mentions login in its first kilobyte and whose first two
kilobytes contain both a form tag and a password marker, or the GET
raised a network error; every other outcome is valid. -/
theorem c5_amended (v : ValInput) :
    validateCookies v = false ↔ amendedValidatorInvalid v = true := by
  cases v with
  | exc => simp [validateCookies, amendedValidatorInvalid]
  | resp status location text =>
    simp only [validateCookies, amendedValidatorInvalid]
    split_ifs with h1 h2 <;> simp_all

/-- Witness for the amended claim C2, at the concrete silently
re-displayed form scenario with no cookies. -/
theorem c2_witness :
    (∃ e, (performLogin ("u") ("pw") envRedisplayNoCookies []).fst = Except.error e) ∧
      (loginSyncMem ("u") ("pw") ("unified") true ValInput.exc
        envRedisplayNoCookies [] 0 86400 []).snd = [] := by
  exact c2_amended ("u") ("pw") ("unified") ValInput.exc envRedisplayNoCookies
    [] [] pageWithLoginForm loginFormFixture [] 0 86400 rfl rfl rfl rfl rfl

/-- Claim C3: for every service and every initialized session, the
asynchronous login method raises AttributeError on reading use_cache
before performing any login, because neither the constructor nor the
context-manager entry, the only methods that assign attributes, ever
assigns use_cache or cache; consequently the method never reaches the
flow and never returns cookies, and the cache state is untouched. -/
theorem c3_async_attribute_error (u pw service : String) (cacheTtl : Nat)
    (env : AsyncEnv) (jar0 : List Cookie)
    (cacheDict : List (String × List Cookie)) :
    alistGet (asyncEnteredAttrs u pw cacheTtl) ("use_cache") = none ∧
    alistGet (asyncEnteredAttrs u pw cacheTtl) ("cache") = none ∧
    asyncLoginMethod (asyncEnteredAttrs u pw cacheTtl) u pw service env jar0 cacheDict =
      ((Except.error (FlowErr.attrError ("use_cache")), false), cacheDict) := by
  exact ⟨rfl, rfl, rfl⟩

/-- Claim C6, counterexample: the asynchronous engine verifies a run
by text indicators, not by inspecting the cookie jar: a completed
asynchronous run whose final page mentions a logout marker returns
successfully although no JSESSIONID or federated-session cookie was
ever collected. -/
theorem c6_counterexample :
    (asyncPerformLogin ("u") ("pw") asyncEnvAbsVerify []).fst = Except.ok [] ∧
      hasSessionCookie [] = false := by
  exact ⟨rfl, rfl⟩

/-- Claim C6 as amended: in the synchronous engine, every run that
found a credential form and returned successfully ends with a session
cookie, named exactly JSESSIONID or with the federated-session prefix,
in the accumulated jar, and a run reaching the verification step
without one raises a fatal authentication failure; the asynchronous
engine instead verifies by text indicators and the no-form early
return skips the check altogether. -/
theorem c6_amended (u pw : String) (env : LoginEnv) (jar0 jar j : List Cookie)
    (pg : Page) (f : Form) (tr : List TraceReq)
    (h12 : stage12 env jar0 = (Except.ok (jar, pg), tr))
    (hform : findLoginForm pg = some f)
    (hok : (performLogin u pw env jar0).fst = Except.ok j) :
    hasSessionCookie j = true ∧
      ∀ jarF trF, hasSessionCookie jarF = false →
        verifyStage (Except.ok jarF) trF =
          (Except.error (FlowErr.authError
            ("Authentication failed: No session cookies found")), trF) := by
  constructor
  · simp only [performLogin, h12, hform] at hok
    exact performCredential_ok_hasSession u pw f jar env j hok
  · intro jarF trF hF
    simp only [verifyStage, hF]
    rfl

/-- Witness for the amended claim C6, at the concrete successful
scenario ending with a JSESSIONID cookie. -/
theorem c6_witness :
    hasSessionCookie [jsidCookie] = true ∧
      ∀ jarF trF, hasSessionCookie jarF = false →
        verifyStage (Except.ok jarF) trF =
          (Except.error (FlowErr.authError
            ("Authentication failed: No session cookies found")), trF) := by
  exact c6_amended ("u") ("pw") envLoginSuccess [] [] [jsidCookie]
    pageWithLoginForm loginFormFixture [] rfl rfl rfl

/-- Claim C8, counterexample: a facade call that finds a cached entry,
sees it fail validation, and then suffers an engine failure has
deleted the stale entry: the cache state for the key is changed by the
failed call, contrary to the claim that it is unchanged. -/
theorem c8_counterexample :
    loginSyncMem ("u") ("pw") ("unified") true ValInput.exc envAllNone
      [(("u_unified"), ([jsidCookie], 100))] 0 86400 [] =
      (Except.error FacadeErr.network, []) ∧
    ([] : MemState) ≠ [(("u_unified"), ([jsidCookie], 100))] := by
  exact ⟨rfl, by decide⟩

/-- Claim C8 as amended: when the Login Flow Engine fails, the facade
propagates the typed error, wrapping only requests-level exceptions
into a NetworkError, and performs no cache write: if the key missed
the cache, the final cache state is exactly the state left by the
lookup.  A pre-existing entry for the key may nonetheless disappear
before the engine runs, through lazy-expiry eviction during the lookup
or deletion after failed validation. -/
theorem c8_amended (u pw service : String) (validateCache : Bool)
    (valIn : ValInput) (env : LoginEnv) (st st1 : MemState)
    (now cacheTtl : Nat) (jar0 : List Cookie) (e : FlowErr)
    (hmiss : memGet st now (u ++ ("_") ++ service) = (none, st1))
    (herr : (performLogin u pw env jar0).fst = Except.error e) :
    loginSyncMem u pw service validateCache valIn env st now cacheTtl jar0 =
      (Except.error (wrapErr e), st1) := by
  simp only [loginSyncMem, hmiss, herr]

/-- Witness for the amended claim C8: an empty cache and an
environment whose first request raises. -/
theorem c8_witness :
    loginSyncMem ("u") ("pw") ("unified") true ValInput.exc envAllNone [] 0 86400 [] =
      (Except.error (wrapErr FlowErr.netExc), []) := by
  exact c8_amended ("u") ("pw") ("unified") true ValInput.exc envAllNone
    [] [] 0 86400 [] FlowErr.netExc rfl rfl

/-- Claim C10, counterexample: a persisted entry holding the JSON
array instead of the expected record is malformed, yet get raises a
TypeError, uncaught by the except clause, and leaves the file in
place instead of deleting it and returning a miss. -/
theorem c10_counterexample :
    fileGet [((cachePath ("k")), FileData.json (Json.arr []))] 0 ("k") =
      (Except.error PyExc.typeError,
       [((cachePath ("k")), FileData.json (Json.arr []))]) ∧
    caughtByFileGet PyExc.typeError = false := by
  exact ⟨rfl, rfl⟩

/-- Claim C10 as amended: for a persisted entry whose load fails with
one of the caught exception kinds, a JSON syntax error, a missing key,
or an invalid timestamp value, get deletes the file and returns a miss
without raising; a load failure of any other kind, such as the
TypeError produced by wrongly typed JSON, propagates to the caller
with the file left in place. -/
theorem c10_amended (fs : FS) (now : Nat) (key : String) (fd : FileData)
    (e : PyExc)
    (hfd : alistGet fs (cachePath key) = some fd)
    (hbody : fileGetBody fd now = Except.error e) :
    (caughtByFileGet e = true →
      fileGet fs now key = (Except.ok none, alistDel fs (cachePath key))) ∧
    (caughtByFileGet e = false → fileGet fs now key = (Except.error e, fs)) := by
  constructor <;> intro hc <;> simp [fileGet, hfd, hbody, hc]

theorem char_ofNat_digit_toNat (d : Nat) (h : d < 10) :
    (Char.ofNat (48 + d)).toNat = 48 + d := by
  interval_cases d <;> decide

theorem foldr_mul_add_eq_ofDigits (l : List Nat) :
    l.foldr (fun d acc => acc * 10 + d) 0 = Nat.ofDigits 10 l := by
  induction l with
  | nil => rfl
  | cons d t ih =>
    rw [List.foldr_cons, ih, Nat.ofDigits_cons]
    ring

theorem isoParse_isoFormat (n : Nat) : isoParse (isoFormat n) = some n := by
  unfold isoFormat
  by_cases h0 : n = 0
  · subst h0
    decide
  · rw [if_neg h0]
    unfold isoParse
    have hdata : (String.mk (((Nat.digits 10 n).reverse).map
        (fun d => Char.ofNat (48 + d)))).data =
        ((Nat.digits 10 n).reverse).map (fun d => Char.ofNat (48 + d)) := rfl
    rw [hdata]
    have hdig : ∀ d ∈ (Nat.digits 10 n).reverse, d < 10 := by
      intro d hd
      exact Nat.digits_lt_base (by norm_num) (List.mem_reverse.mp hd)
    have hne : (Nat.digits 10 n).reverse ≠ [] := by
      intro hcontra
      exact Nat.digits_ne_nil_iff_ne_zero.mpr h0
        (List.reverse_eq_nil_iff.mp hcontra)
    have hall : (((Nat.digits 10 n).reverse).map
        (fun d => Char.ofNat (48 + d))).all (fun c => (decDigit c).isSome) = true := by
      rw [List.all_eq_true]
      intro c hc
      rcases List.mem_map.mp hc with ⟨d, hd, rfl⟩
      have h10 := hdig d hd
      unfold decDigit
      rw [char_ofNat_digit_toNat d h10]
      rw [if_pos (by omega)]
      rfl
    rw [if_pos ?side]
    case side =>
      refine ⟨?_, hall⟩
      intro hcontra
      exact hne (by simpa using hcontra)
    congr 1
    rw [List.foldl_map]
    have hfold : ((Nat.digits 10 n).reverse).foldl
        (fun acc d => acc * 10 + ((Char.ofNat (48 + d)).toNat - 48)) 0 =
        ((Nat.digits 10 n).reverse).foldl (fun acc d => acc * 10 + d) 0 := by
      apply List.foldl_ext
      intro acc d hd
      rw [char_ofNat_digit_toNat d (hdig d hd)]
      omega
    rw [hfold, List.foldl_reverse, foldr_mul_add_eq_ofDigits]
    exact_mod_cast Nat.ofDigits_digits 10 n

theorem buildCookie_cookieJson (c : Cookie) :
    buildCookie (cookieJson c) = Except.ok c := by
  rfl

theorem buildJar_map_cookieJson :
    ∀ (cs : List Cookie) (acc : List Cookie),
      buildJar (cs.map cookieJson) acc = Except.ok (cs.foldl jarSet acc) := by
  intro cs
  induction cs with
  | nil =>
    intro acc
    rfl
  | cons e t ih =>
    intro acc
    simp only [List.map_cons, buildJar, buildCookie_cookieJson,
      List.foldl_cons, ih]

theorem foldl_jarSet_append :
    ∀ (c : List Cookie) (acc : List Cookie),
      (∀ d ∈ acc, ∀ e ∈ c, cookieKeyEq d e = false) →
      c.Pairwise (fun a b => cookieKeyEq a b = false) →
      c.foldl jarSet acc = acc ++ c := by
  intro c
  induction c with
  | nil =>
    intro acc _ _
    simp
  | cons e t ih =>
    intro acc hacc hpw
    rw [List.foldl_cons]
    have hset : jarSet acc e = acc ++ [e] := by
      unfold jarSet
      congr 1
      apply List.filter_eq_self.mpr
      intro d hd
      rw [hacc d hd e (List.mem_cons_self e t)]
      rfl
    rw [hset, ih (acc ++ [e]) ?hdisj (List.pairwise_cons.mp hpw).2]
    · rw [List.append_assoc]
      rfl
    case hdisj =>
      intro d hd e2 he2
      rcases List.mem_append.mp hd with h1 | h1
      · exact hacc d h1 e2 (List.mem_cons_of_mem e he2)
      · rw [List.mem_singleton] at h1
        subst h1
        exact (List.pairwise_cons.mp hpw).1 e2 he2

theorem fileGetBody_record_expired (t1 expiresAt : Nat) (cs : List Json)
    (hexp : t1 > expiresAt) :
    fileGetBody (FileData.json (Json.obj
      [(("expires_at"), Json.str (isoFormat expiresAt)),
       (("cookies"), Json.arr cs)])) t1 = Except.ok none := by
  have hexpI : jsonIndex (Json.obj
      [(("expires_at"), Json.str (isoFormat expiresAt)),
       (("cookies"), Json.arr cs)]) ("expires_at") =
      Except.ok (Json.str (isoFormat expiresAt)) := rfl
  simp only [fileGetBody, hexpI, fromIsoformat, isoParse_isoFormat]
  rw [if_pos hexp]

theorem fileGetBody_record (t1 expiresAt : Nat) (c : List Cookie)
    (hpw : c.Pairwise (fun a b => cookieKeyEq a b = false)) :
    fileGetBody (FileData.json (Json.obj
      [(("expires_at"), Json.str (isoFormat expiresAt)),
       (("cookies"), Json.arr (c.map cookieJson))])) t1 =
    if t1 > expiresAt then Except.ok none else Except.ok (some c) := by
  have hexp : jsonIndex (Json.obj
      [(("expires_at"), Json.str (isoFormat expiresAt)),
       (("cookies"), Json.arr (c.map cookieJson))]) ("expires_at") =
      Except.ok (Json.str (isoFormat expiresAt)) := rfl
  have hcook : jsonIndex (Json.obj
      [(("expires_at"), Json.str (isoFormat expiresAt)),
       (("cookies"), Json.arr (c.map cookieJson))]) ("cookies") =
      Except.ok (Json.arr (c.map cookieJson)) := rfl
  simp only [fileGetBody, hexp, hcook, fromIsoformat, isoParse_isoFormat,
    jsonIter, buildJar_map_cookieJson]
  by_cases ht : t1 > expiresAt
  · rw [if_pos ht, if_pos ht]
  · rw [if_neg ht, if_neg ht]
    rw [foldl_jarSet_append c [] (by intro d hd; cases hd) hpw]
    rw [List.nil_append]

/-- Claim C4, counterexample: the no-op cache backend is one of the
claimed backend implementations, yet a get immediately after a set
returns absent, not the stored cookie set. -/
theorem c4_counterexample :
    nullSet ("k") [jsidCookie] (some 60) = () ∧
      nullGet ("k") = none ∧ nullGet ("k") ≠ some [jsidCookie] := by
  refine ⟨rfl, rfl, ?_⟩
  decide

/-- Claim C4 as amended: for the in-memory and the file-backed cache
backends, for every key, cookie set without colliding
name-domain-path triples, and positive ttl, a get immediately after a
set returns the stored cookie set; the no-op backend, by design,
stores nothing and always returns absent. -/
theorem c4_amended (st : MemState) (fs : FS) (now : Nat) (key : String)
    (c : List Cookie) (ttl defaultTtl : Nat)
    (httl : 0 < ttl)
    (hpw : c.Pairwise (fun a b => cookieKeyEq a b = false)) :
    (memGet (memSet st now key c (some ttl) defaultTtl) now key).fst = some c ∧
    (fileGet (fileSet fs now key c (some ttl) defaultTtl) now key).fst =
      Except.ok (some c) := by
  have hnow : ¬ now > now + ttl := by omega
  constructor
  · simp only [memGet, memSet, Option.getD, alistGet_upd_self]
    rw [if_neg hnow]
  · simp only [fileGet, fileSet, Option.getD, alistGet_upd_self]
    rw [fileGetBody_record now (now + ttl) c hpw, if_neg hnow]

/-- Witness for the amended claim C4, at a concrete key, cookie set
and ttl on empty backends. -/
theorem c4_witness :
    0 < 60 ∧
    ((memGet (memSet [] 0 ("k") [jsidCookie] (some 60) 86400) 0 ("k")).fst =
        some [jsidCookie] ∧
      (fileGet (fileSet [] 0 ("k") [jsidCookie] (some 60) 86400) 0 ("k")).fst =
        Except.ok (some [jsidCookie])) := by
  exact ⟨by decide,
    c4_amended [] [] 0 ("k") [jsidCookie] 60 86400 (by decide) (by decide)⟩

/-- Claim C7: the in-memory and file-backed backends self-evict on
read.  A stored entry whose expiry lies strictly in the past at get
time yields absent and is removed from the backing map or directory,
and a subsequent get still yields absent; an expired entry is never
returned. -/
theorem c7_lazy_expiry (st : MemState) (key : String) (c : List Cookie)
    (expiresAt now : Nat) (fs : FS) (t0 ttl defaultTtl t1 : Nat)
    (hmem : alistGet st key = some (c, expiresAt)) (hexp : now > expiresAt)
    (hlate : t1 > t0 + ttl) :
    memGet st now key = (none, alistDel st key) ∧
    alistGet (memGet st now key).snd key = none ∧
    fileGet (fileSet fs t0 key c (some ttl) defaultTtl) t1 key =
      (Except.ok none,
       alistDel (fileSet fs t0 key c (some ttl) defaultTtl) (cachePath key)) ∧
    (fileGet (alistDel (fileSet fs t0 key c (some ttl) defaultTtl)
        (cachePath key)) t1 key).fst = Except.ok none := by
  have hmemGet : memGet st now key = (none, alistDel st key) := by
    simp only [memGet, hmem]
    rw [if_pos hexp]
  refine ⟨hmemGet, ?_, ?_, ?_⟩
  · rw [hmemGet]
    exact alistGet_del_self st key
  · have hbody := fileGetBody_record_expired t1 (t0 + ttl) (c.map cookieJson) hlate
    simp only [fileGet, fileSet, Option.getD, alistGet_upd_self, hbody]
  · simp only [fileGet]
    rw [alistGet_del_self]

/-- Witness for claim C7, at a concrete expired entry in each
backend. -/
theorem c7_witness :
    memGet [(("k"), ([jsidCookie], 5))] 10 ("k") =
        (none, alistDel [(("k"), ([jsidCookie], 5))] ("k")) ∧
      alistGet (memGet [(("k"), ([jsidCookie], 5))] 10 ("k")).snd ("k") = none ∧
      fileGet (fileSet [] 0 ("k") [jsidCookie] (some 1) 86400) 3 ("k") =
        (Except.ok none,
         alistDel (fileSet [] 0 ("k") [jsidCookie] (some 1) 86400)
           (cachePath ("k"))) ∧
      (fileGet (alistDel (fileSet [] 0 ("k") [jsidCookie] (some 1) 86400)
          (cachePath ("k"))) 3 ("k")).fst = Except.ok none := by
  exact c7_lazy_expiry [(("k"), ([jsidCookie], 5))] ("k") [jsidCookie] 5 10
    [] 0 1 86400 3 rfl (by decide) (by decide)

/-- Witness for the amended claim C10: a file that is not valid JSON
is deleted and reported as a miss. -/
theorem c10_witness :
    fileGet [((cachePath ("k")), FileData.notJson)] 0 ("k") =
      (Except.ok none,
       alistDel [((cachePath ("k")), FileData.notJson)] (cachePath ("k"))) := by
  exact (c10_amended [((cachePath ("k")), FileData.notJson)] 0 ("k")
    FileData.notJson PyExc.jsonDecodeError rfl rfl).1 rfl

theorem verifyStage_snd (r : Except FlowErr (List Cookie))
    (tr2 : List TraceReq) : (verifyStage r tr2).snd = tr2 := by
  cases r with
  | error e => rfl
  | ok jarF =>
    simp only [verifyStage]
    split <;> rfl

theorem redirectStage_trace (r4 : NetResponse) (jar4 : List Cookie)
    (env : LoginEnv) (tr0 : List TraceReq) :
    ∃ s, (redirectStage r4 jar4 env tr0).snd = tr0 ++ s := by
  unfold redirectStage
  repeat' split
  · exact ⟨[], by simp⟩
  · exact ⟨_, rfl⟩
  · exact ⟨_, rfl⟩
  · exact ⟨[], by simp⟩

theorem samlStage_trace (jar5 : List Cookie) (pg5 : Page) (env : LoginEnv)
    (tr : List TraceReq) :
    ∃ s, (samlStage jar5 pg5 env tr).snd = tr ++ s := by
  simp only [samlStage]
  repeat' split
  · exact ⟨[], (List.append_nil tr).symm⟩
  · exact ⟨[], (List.append_nil tr).symm⟩
  · exact ⟨_, rfl⟩
  · exact ⟨_, rfl⟩
  · exact ⟨_, rfl⟩

theorem asyncAfterCred_trace (u : String) (jar : List Cookie) (html : String)
    (pg : Page) (env : AsyncEnv) (tr : List TraceReq) :
    ∃ s, (asyncAfterCred u jar html pg env tr).snd = tr ++ s := by
  simp only [asyncAfterCred]
  repeat' split
  all_goals first
    | exact ⟨[], (List.append_nil tr).symm⟩
    | exact ⟨_, rfl⟩

theorem performCredential_trace (u pw : String) (f : Form) (jar : List Cookie)
    (env : LoginEnv) (a : String) (hfa : f.action = some a) :
    ∃ s, (performCredential u pw f jar env).snd =
      TraceReq.mk ReqKind.credential (resolveAction a)
        (specCredentialData u pw f.inputs) :: s := by
  cases hs4 : env.step4 with
  | none =>
    simp only [performCredential, hfa, hs4]
    exact ⟨[], rfl⟩
  | some r4 =>
    simp only [performCredential, hfa, hs4]
    split
    · exact ⟨[], rfl⟩
    split
    · rename_i e tr hred
      obtain ⟨s1, hs1⟩ := redirectStage_trace r4 (jarUpdate jar r4.setCookies) env
        [TraceReq.mk ReqKind.credential (resolveAction a)
          (specCredentialData u pw f.inputs)]
      rw [hred] at hs1
      exact ⟨s1, hs1⟩
    · rename_i jar5 pg5 tr hred
      obtain ⟨s1, hs1⟩ := redirectStage_trace r4 (jarUpdate jar r4.setCookies) env
        [TraceReq.mk ReqKind.credential (resolveAction a)
          (specCredentialData u pw f.inputs)]
      rw [hred] at hs1
      have hs1t : tr = [TraceReq.mk ReqKind.credential (resolveAction a)
          (specCredentialData u pw f.inputs)] ++ s1 := hs1
      obtain ⟨s2, hs2⟩ := samlStage_trace jar5 pg5 env tr
      refine ⟨s1 ++ s2, ?_⟩
      rw [verifyStage_snd, hs2, hs1t]
      simp

/-- Claim C9, counterexample: in a concrete asynchronous run whose
login form carries a hidden token, the credential POST body consists
of exactly the three fields j_username, j_password and
_eventId_proceed, while the claimed payload also preserves the
existing token field; the asynchronous engine therefore does not post
the collected form fields. -/
theorem c9_counterexample :
    (asyncPerformLogin ("u") ("pw") asyncEnvTextVerify []).snd =
      [TraceReq.mk ReqKind.credential ("/idp/profile/SAML2/Redirect/SSO")
        [(("j_username"), ("u")), (("j_password"), ("pw")),
         (("_eventId_proceed"), (""))]] ∧
    specCredentialData ("u") ("pw") loginFormFixture.inputs ≠
      [(("j_username"), ("u")), (("j_password"), ("pw")),
       (("_eventId_proceed"), (""))] := by
  refine ⟨rfl, ?_⟩
  decide

/-- Claim C9 as amended: the synchronous engine posts, as its
credential submission, exactly the collected input pairs of the login
form with j_username, j_password and an empty _eventId_proceed
overwritten or added and the two SPNEGO fields removed, to the
resolved form action; the asynchronous engine instead posts only the
three credential fields, to the unresolved action, discarding the
collected inputs. -/
theorem c9_amended :
    (∀ (u pw : String) (f : Form) (jar : List Cookie) (env : LoginEnv)
        (a : String),
      f.action = some a →
      ∃ s, (performCredential u pw f jar env).snd =
        TraceReq.mk ReqKind.credential (resolveAction a)
          (specCredentialData u pw f.inputs) :: s) ∧
    (∀ (u pw : String) (env : AsyncEnv) (jar0 : List Cookie) (r1 : AsyncResp)
        (f : Form) (a : String),
      env.getService = some r1 →
      r1.page.forms.find? (fun fm => fm.id == some ("login")) = some f →
      f.action = some a →
      ∃ s, (asyncPerformLogin u pw env jar0).snd =
        TraceReq.mk ReqKind.credential a
          [(("j_username"), u), (("j_password"), pw),
           (("_eventId_proceed"), (""))] :: s) := by
  constructor
  · intro u pw f jar env a hfa
    exact performCredential_trace u pw f jar env a hfa
  · intro u pw env jar0 r1 f a hr1 hform hfa
    simp only [asyncPerformLogin, hr1, hform, hfa]
    split
    · split
      · exact ⟨[], rfl⟩
      · split
        · split
          · exact ⟨[], rfl⟩
          · split
            · exact ⟨_, rfl⟩
            · obtain ⟨s, hs⟩ := asyncAfterCred_trace u _ _ _ env _
              rw [hs]
              exact ⟨_, rfl⟩
        · split
          · exact ⟨[], rfl⟩
          · obtain ⟨s, hs⟩ := asyncAfterCred_trace u _ _ _ env _
            rw [hs]
            exact ⟨_, rfl⟩
    · exact ⟨[], rfl⟩

/-- Witness for the amended claim C9, at the concrete synchronous
success scenario and the concrete asynchronous run. -/
theorem c9_witness :
    (∃ s, (performCredential ("u") ("pw") loginFormFixture [] envLoginSuccess).snd =
      TraceReq.mk ReqKind.credential
        (resolveAction ("/idp/profile/SAML2/Redirect/SSO"))
        (specCredentialData ("u") ("pw") loginFormFixture.inputs) :: s) ∧
    (∃ s, (asyncPerformLogin ("u") ("pw") asyncEnvTextVerify []).snd =
      TraceReq.mk ReqKind.credential ("/idp/profile/SAML2/Redirect/SSO")
        [(("j_username"), ("u")), (("j_password"), ("pw")),
         (("_eventId_proceed"), (""))] :: s) := by
  exact ⟨c9_amended.1 ("u") ("pw") loginFormFixture [] envLoginSuccess
      ("/idp/profile/SAML2/Redirect/SSO") rfl,
    c9_amended.2 ("u") ("pw") asyncEnvTextVerify []
      (AsyncResp.mk 200 none ("") pageWithLoginForm []) loginFormFixture
      ("/idp/profile/SAML2/Redirect/SSO") rfl rfl rfl⟩

end Dsv
